import Mathlib

/-!
Shallow embedding of `src/harvest/app.py` (fgo_harvest orchestration core).

The app module orchestrates external collaborators (the `chalicelib`
recorder / storage / twitter modules, which are outside `src/`).  We embed
each entry point as a pure function that returns the ordered trace of
observable effects it performs (storage writes, recorder commits, index
builds, cursor updates, feed fetches), parameterised over the behaviour of
the external collaborators:

* `parse`       — `twitter.parse_tweet`, one raw tweet to a report or error;
* `RecorderCounts` — the `recording.Recorder.count()` values (pending
  partition counts) for each partition axis, as a function of the reports
  that were added via `add_all`;
* `parseURL`    — `twitter.StatusTweetURLParser` on a single URL;
* `userReports` — the per-user rendered state (`UserOutputRepository.load`);
* `get_multi`   — `twitter.Agent.get_multi`, the recollection batch fetch.

Machine dates are abstracted to `Nat` day codes and tweet identifiers to
`Nat` (twitter ids are positive decimal integers).
-/

/-- A fetched raw feed item (`twitter.TweetCopy`): its identifier and its
UTC creation day (only these two attributes are consumed by `app.py`). -/
structure TweetCopy where
  tweet_id : Nat
  created_day : Nat
deriving DecidableEq

/-- A parsed run report (`twitter.RunReport`); its internals are only ever
handed to external collaborators, so it is abstract here. -/
structure RunReport where
  rid : Nat
deriving DecidableEq

/-- A tweet that failed parsing, paired with the error message
(`twitter.ParseErrorTweet`). -/
structure ParseErrorTweet where
  tweet : TweetCopy
  error_message : String
deriving DecidableEq

/-- Observable effects performed by the app's entry points, in program
order.  Reads of the cursor and the censored-accounts (exclusion) file are
recorded as effects too, so frame claims about "never reads or writes"
can be stated on traces. -/
inductive Effect where
  | cursorRead
  | censoredLoad
  | collectFetch (since_id : Option Nat)
  | tweetRepoPut (file : String) (tweets : List TweetCopy)
  | tweetRepoAppend (file : String) (tweets : List TweetCopy)
  | recorderSave (axis : String) (force : Bool) (ignore_original : Bool)
  | errorPageSave (force : Bool) (ignore_original : Bool)
  | latestDatePageBuild
  | latestMonthPageBuild
  | cursorWrite (tweet_id : Nat)
  | censoredSave
  | getMulti (ids : List Nat)
  | createInvalidation (paths : List String)
deriving DecidableEq

/-- Effects that write persistent state (raw log, partitions, indexes,
cursor, exclusion set) or trigger downstream actions. -/
def Effect.isWrite : Effect → Bool
  | .tweetRepoPut _ _ => true
  | .tweetRepoAppend _ _ => true
  | .recorderSave _ _ _ => true
  | .errorPageSave _ _ => true
  | .latestDatePageBuild => true
  | .latestMonthPageBuild => true
  | .cursorWrite _ => true
  | .censoredSave => true
  | .createInvalidation _ => true
  | _ => false

/-- Effects belonging to the render fan-out (recorder commits and derived
index builds). -/
def Effect.isRender : Effect → Bool
  | .recorderSave _ _ _ => true
  | .errorPageSave _ _ => true
  | .latestDatePageBuild => true
  | .latestMonthPageBuild => true
  | _ => false

/-- Effects that read or write the Cursor (latest-tweet-id object) or the
Exclusion Set (censored accounts). -/
def Effect.touchesCursorOrCensored : Effect → Bool
  | .cursorRead => true
  | .cursorWrite _ => true
  | .censoredLoad => true
  | .censoredSave => true
  | _ => false

/-- The external `recording.Recorder.count()` (pending partition count)
values, one per partition axis / recorder instance that `app.py` creates,
as a function of the reports passed to `add_all`. -/
structure RecorderCounts where
  date : List RunReport → Nat
  user : List RunReport → Nat
  userList : List RunReport → Nat
  quest : List RunReport → Nat
  month : List RunReport → Nat

/-- `parse_tweets(app, tweets)` from `app.py`: parse each tweet
independently; successes accumulate as reports, failures as error tweets;
a failure never aborts the batch. -/
def parse_tweets (parse : TweetCopy → Except String RunReport) :
    List TweetCopy → List RunReport × List ParseErrorTweet
  | [] => ([], [])
  | tw :: rest =>
    let pr := parse_tweets parse rest
    match parse tw with
    | .ok report => (report :: pr.1, pr.2)
    | .error msg => (pr.1, ⟨tw, msg⟩ :: pr.2)

/-- `render_date_contents` from `app.py`: commit the by-date recorder only
when its pending count is nonzero, then unconditionally rebuild the
latest-date navigation page. -/
def render_date_contents (ext : RecorderCounts) (reports : List RunReport)
    (force_save : Bool) (ignore_original : Bool) : List Effect :=
  (if ext.date reports ≠ 0 then
    [Effect.recorderSave "date" force_save ignore_original]
  else [])
  ++ [Effect.latestDatePageBuild]

/-- `render_user_contents` from `app.py`: by-user recorder and by-user-list
recorder, each committed only when its pending count is nonzero, with the
caller's flags. -/
def render_user_contents (ext : RecorderCounts) (reports : List RunReport)
    (force_save : Bool) (ignore_original : Bool) : List Effect :=
  (if ext.user reports ≠ 0 then
    [Effect.recorderSave "user" force_save ignore_original]
  else [])
  ++ (if ext.userList reports ≠ 0 then
    [Effect.recorderSave "userlist" force_save ignore_original]
  else [])

/-- `render_quest_contents` from `app.py`: the by-quest recorder is
committed only when its pending count is nonzero, with the caller's flags;
the by-quest-list recorder is always committed with `force=True`
(and the caller's `ignore_original`), with no count gate. -/
def render_quest_contents (ext : RecorderCounts) (reports : List RunReport)
    (force_save : Bool) (ignore_original : Bool) : List Effect :=
  (if ext.quest reports ≠ 0 then
    [Effect.recorderSave "quest" force_save ignore_original]
  else [])
  ++ [Effect.recorderSave "questlist" true ignore_original]

/-- `render_error_contents` from `app.py`: the error page recorder is
committed unconditionally (no count gate) with the caller's flags. -/
def render_error_contents (errors : List ParseErrorTweet)
    (force_save : Bool) (ignore_original : Bool) : List Effect :=
  [Effect.errorPageSave force_save ignore_original]

/-- `render_contents` from `app.py`: the shared fan-out over the date,
user, quest and error stages, with `force_save` left at its default
`False` and the caller's `ignore_original`. -/
def render_contents (ext : RecorderCounts) (reports : List RunReport)
    (errors : List ParseErrorTweet) (ignore_original : Bool) : List Effect :=
  render_date_contents ext reports false ignore_original
  ++ render_user_contents ext reports false ignore_original
  ++ render_quest_contents ext reports false ignore_original
  ++ render_error_contents errors false ignore_original

/-- `render_month_contents` from `app.py`: the by-month recorder is
committed only when its pending count is nonzero, always with
`ignore_original=True`; then the latest-month page is rebuilt
unconditionally. -/
def render_month_contents (ext : RecorderCounts) (reports : List RunReport)
    (force_save : Bool) : List Effect :=
  (if ext.month reports ≠ 0 then
    [Effect.recorderSave "month" force_save true]
  else [])
  ++ [Effect.latestMonthPageBuild]

/-- `collect_tweets` from `app.py` (the scheduled run).  `since_id` is the
parsed content of the latest-tweet-id file (`none` when absent or
unparseable), `tweets` is the collector's newest-first response, `now_str`
the wall-clock timestamp used for the raw log file name.  Returns the
effect trace and the resulting cursor value. -/
def collect_tweets (parse : TweetCopy → Except String RunReport)
    (ext : RecorderCounts) (since_id : Option Nat)
    (tweets : List TweetCopy) (now_str : String) :
    List Effect × Option Nat :=
  match tweets with
  | [] =>
    ([Effect.cursorRead, Effect.censoredLoad, Effect.collectFetch since_id],
     since_id)
  | latest :: restTweets =>
    let pr := parse_tweets parse (latest :: restTweets)
    ([Effect.cursorRead, Effect.censoredLoad, Effect.collectFetch since_id,
      Effect.tweetRepoPut (now_str ++ ".json") (latest :: restTweets)]
      ++ render_date_contents ext pr.1 false false
      ++ render_user_contents ext pr.1 false false
      ++ render_quest_contents ext pr.1 false false
      ++ render_error_contents pr.2 false false
      ++ [Effect.cursorWrite latest.tweet_id, Effect.censoredSave],
     some latest.tweet_id)

/-- Witness for C9 at a concrete recorder-count instance. -/
def counts0 : RecorderCounts :=
  ⟨fun rs => rs.length, fun rs => rs.length, fun rs => rs.length,
   fun rs => rs.length, fun rs => rs.length⟩

/-- Python's `str.endswith`: suffix test on the character sequence. -/
def str_endswith (s suffix : String) : Bool :=
  suffix.data.isSuffixOf s.data

/-- Python's `item[:item.rfind('/') + 1]`: drop the characters after the
last `'/'`, keeping the `'/'` itself (empty when no `'/'` occurs, matching
`rfind` returning `-1`). -/
def truncate_after_last_slash (s : String) : String :=
  String.mk ((s.data.reverse.dropWhile (fun c => c ≠ '/')).reverse)

/-- `invalidate_cloudfront_cache` from `app.py`: given the storage-write
notification's object key and size, emit the CDN invalidation requests
(at most one, for the parent directory of the index page). -/
def invalidate_cloudfront_cache (key : String) (object_size : Nat) :
    List Effect :=
  let item := "/" ++ key
  if ¬ str_endswith item "/index.html" then []
  else if object_size < 600 then []
  else [Effect.createInvalidation [truncate_after_last_slash item]]

/-- The event configuration of `rebuild_outputs`: the four independent
per-stage skip flags (`skipBuildDate` etc.). -/
structure RebuildEvent where
  skipBuildDate : Bool
  skipBuildUser : Bool
  skipBuildQuest : Bool
  skipBuildMonth : Bool
deriving DecidableEq

/-- `rebuild_outputs` from `app.py` (the rebuild batch job).  `tweets` is
the full raw history as returned by `TweetRepository.readall` with the
censored accounts already filtered out.  Each of the date/user/quest/month
stages is guarded by its skip flag (the first three with
`ignore_original=True`), and then `render_contents` runs unconditionally
with `ignore_original=True`. -/
def rebuild_outputs (parse : TweetCopy → Except String RunReport)
    (ext : RecorderCounts) (ev : RebuildEvent) (tweets : List TweetCopy) :
    List Effect :=
  let pr := parse_tweets parse tweets
  (if ev.skipBuildDate then [] else render_date_contents ext pr.1 false true)
  ++ (if ev.skipBuildUser then []
      else render_user_contents ext pr.1 false true)
  ++ (if ev.skipBuildQuest then []
      else render_quest_contents ext pr.1 false true)
  ++ (if ev.skipBuildMonth then []
      else render_month_contents ext pr.1 false)
  ++ render_contents ext pr.1 pr.2 true

/-- The body of a recollection request as seen by the endpoint: either the
JSON body is not a list, or it is a list of URL strings. -/
inductive RequestBody where
  | notList
  | ofList (urls : List String)

/-- Outcome of a route handler: a `BadRequestError` or the `ok` status. -/
inductive RouteResult where
  | badRequest (msg : String)
  | ok
deriving DecidableEq

/-- Parse every URL, failing the whole list when any single URL is
unparseable.  Modelled from the spec: `twitter.StatusTweetURLParser` is
not under `src/`; §4.2 says "Parse every URL into a (source,
target-identifier) pair; any single unparseable URL fails the entire
call". -/
def parse_multi_pairs (parseURL : String → Option (String × Nat)) :
    List String → Option (List (String × Nat))
  | [] => some []
  | url :: rest =>
    match parseURL url, parse_multi_pairs parseURL rest with
    | some p, some ps => some (p :: ps)
    | _, _ => none

/-- Insert one (user, target) pair into an insertion-ordered association
list, mirroring Python dict update `d.setdefault(user, []).append(t)`. -/
def insertTarget (user : String) (t : Nat) :
    List (String × List Nat) → List (String × List Nat)
  | [] => [(user, [t])]
  | (u, ts) :: rest =>
    if u = user then (u, ts ++ [t]) :: rest
    else (u, ts) :: insertTarget user t rest

/-- Modelled from the spec: `StatusTweetURLParser.parse_multi` — parse all
URLs (all-or-nothing) and group the target identifiers by source user
into an insertion-ordered mapping, as a Python dict of lists. -/
def parse_multi (parseURL : String → Option (String × Nat))
    (urls : List String) : Option (List (String × List Nat)) :=
  match parse_multi_pairs parseURL urls with
  | none => none
  | some pairs =>
    some (pairs.foldl (fun acc p => insertTarget p.1 p.2 acc) [])

/-- Insert one tweet into the day-keyed insertion-ordered mapping used by
`split_tweets_by_date`. -/
def insertTweet (d : Nat) (tw : TweetCopy) :
    List (Nat × List TweetCopy) → List (Nat × List TweetCopy)
  | [] => [(d, [tw])]
  | (d0, ws) :: rest =>
    if d0 = d then (d0, ws ++ [tw]) :: rest
    else (d0, ws) :: insertTweet d tw rest

/-- `split_tweets_by_date` from `app.py`: classify tweets by UTC creation
day, preserving first-seen day order and per-day tweet order (a Python
dict of lists). -/
def split_tweets_by_date (tweets : List TweetCopy) :
    List (Nat × List TweetCopy) :=
  tweets.foldl (fun acc tw => insertTweet tw.created_day tw acc) []

/-- The raw log file name for a day bucket in the recollection path:
`dt.strftime('%Y%m%d_000000') + '.json'`, with days abstracted to `Nat`
codes. -/
def day_log_file (dt : Nat) : String := toString dt ++ "_000000.json"

/-- One iteration of the per-day loop in `recollect_tweets`: append the
day's tweets to that day's raw log entry, then run the full render
fan-out with an always-open skip window. -/
def recollect_day (parse : TweetCopy → Except String RunReport)
    (ext : RecorderCounts) (dt : Nat) (tws : List TweetCopy) : List Effect :=
  let pr := parse_tweets parse tws
  Effect.tweetRepoAppend (day_log_file dt) tws ::
    (render_date_contents ext pr.1 false false
     ++ render_user_contents ext pr.1 false false
     ++ render_quest_contents ext pr.1 false false
     ++ render_error_contents pr.2 false false)

/-- `recollect_tweets` from `app.py` (the POST endpoint).  `parseURL` is
the single-URL parser, `userReports` the per-user rendered state
(`UserOutputRepository.load`), `get_multi` the batch fetch (returning the
dict's values in order).  Returns the response and the effect trace. -/
def recollect_tweets (parse : TweetCopy → Except String RunReport)
    (parseURL : String → Option (String × Nat))
    (userReports : String → List Nat)
    (get_multi : List Nat → List TweetCopy)
    (ext : RecorderCounts) (body : RequestBody) :
    RouteResult × List Effect :=
  match body with
  | .notList => (.badRequest "wrong format", [])
  | .ofList data =>
    if data.length > 20 then (.badRequest "wrong format", [])
    else
      match parse_multi parseURL data with
      | none => (.badRequest "wrong format", [])
      | some user_retargets =>
        let candidates : List Nat := user_retargets.foldl
          (fun acc ut =>
            acc ++ ut.2.filter (fun t => ! (userReports ut.1).contains t)) []
        if candidates.isEmpty then (.ok, [])
        else
          let tweets := get_multi candidates
          if tweets.isEmpty then (.ok, [Effect.getMulti candidates])
          else
            (.ok, Effect.getMulti candidates ::
              ((split_tweets_by_date tweets).map
                (fun p => recollect_day parse ext p.1 p.2)).flatten)

/-- Concrete collaborator instances used by witnesses. -/
def parse0 : TweetCopy → Except String RunReport :=
  fun tw => Except.ok ⟨tw.tweet_id⟩

def parseURL0 : String → Option (String × Nat) := fun _ => none

def userReports0 : String → List Nat := fun _ => []

def get_multi0 : List Nat → List TweetCopy := fun _ => []

def parseURL1 : String → Option (String × Nat) := fun _ => some ("u", 1)

def userReports1 : String → List Nat := fun _ => [1]

/-- Claim C1: a scheduled run that receives zero items is a no-op: the
resulting cursor equals the one read, the trace is exactly the two state
reads plus the collector call, and no write or render effect occurs. -/
theorem collect_tweets_zero_noop (parse : TweetCopy → Except String RunReport)
    (ext : RecorderCounts) (since_id : Option Nat) (now_str : String) :
    collect_tweets parse ext since_id [] now_str
      = ([Effect.cursorRead, Effect.censoredLoad, Effect.collectFetch since_id],
         since_id)
    ∧ (collect_tweets parse ext since_id [] now_str).1.filter
        (fun e => e.isWrite || e.isRender) = [] :=
  ⟨rfl, rfl⟩

/-- Claim C9: the date render stage rebuilds the latest-date navigation
page on every call, while the partition commit happens exactly when the
recorder's pending count is nonzero; in particular with an empty report
list (pending count 0) the trace is just the index rebuild. -/
theorem render_date_always_builds_latest_index (ext : RecorderCounts)
    (reports : List RunReport) (force_save ignore_original : Bool) :
    Effect.latestDatePageBuild
      ∈ render_date_contents ext reports force_save ignore_original
    ∧ ((Effect.recorderSave "date" force_save ignore_original
        ∈ render_date_contents ext reports force_save ignore_original)
       ↔ ext.date reports ≠ 0)
    ∧ (ext.date [] = 0 →
        render_date_contents ext [] force_save ignore_original
          = [Effect.latestDatePageBuild]) := by
  refine ⟨?_, ?_, ?_⟩
  · unfold render_date_contents
    split <;> simp
  · unfold render_date_contents
    split <;> simp_all
  · intro h
    unfold render_date_contents
    simp [h]

theorem render_date_always_builds_latest_index_witness :
    render_date_contents counts0 [] false false
      = [Effect.latestDatePageBuild] :=
  (render_date_always_builds_latest_index counts0 [] false false).2.2 rfl

/-- Claim C3: the quest render stage always commits the quest-list
recorder with the force flag set (and never unforced), regardless of the
caller's flags and of any pending count, while the by-quest recorder is
committed with the caller's flags exactly when its pending count is
nonzero. -/
theorem quest_list_always_forced (ext : RecorderCounts)
    (reports : List RunReport) (force_save ignore_original : Bool) :
    Effect.recorderSave "questlist" true ignore_original
      ∈ render_quest_contents ext reports force_save ignore_original
    ∧ Effect.recorderSave "questlist" false ignore_original
      ∉ render_quest_contents ext reports force_save ignore_original
    ∧ ((Effect.recorderSave "quest" force_save ignore_original
        ∈ render_quest_contents ext reports force_save ignore_original)
       ↔ ext.quest reports ≠ 0) := by
  refine ⟨?_, ?_, ?_⟩
  · unfold render_quest_contents
    split <;> simp
  · unfold render_quest_contents
    split <;> simp
  · unfold render_quest_contents
    split <;> simp_all

/-- Witness for C3 at a concrete instance: with one pending quest
partition, both the forced quest-list commit and the flag-carrying quest
commit appear. -/
theorem quest_list_always_forced_witness :
    Effect.recorderSave "questlist" true false
      ∈ render_quest_contents counts0 [⟨1⟩] false false
    ∧ Effect.recorderSave "quest" false false
      ∈ render_quest_contents counts0 [⟨1⟩] false false :=
  ⟨(quest_list_always_forced counts0 [⟨1⟩] false false).1,
   (quest_list_always_forced counts0 [⟨1⟩] false false).2.2.mpr (by decide)⟩

/-- Claim C2: a scheduled run that observes at least one item sets and
persists the cursor to the identifier of the item at index 0 of the
collector's response; under the collector contract (every returned item is
newer than the supplied cursor) the cursor strictly advances. -/
theorem collect_tweets_advance_cursor
    (parse : TweetCopy → Except String RunReport) (ext : RecorderCounts)
    (since_id : Nat) (latest : TweetCopy) (restTweets : List TweetCopy)
    (now_str : String)
    (hnew : ∀ tw ∈ latest :: restTweets, since_id < tw.tweet_id) :
    (collect_tweets parse ext (some since_id) (latest :: restTweets)
        now_str).2 = some latest.tweet_id
    ∧ Effect.cursorWrite latest.tweet_id
        ∈ (collect_tweets parse ext (some since_id) (latest :: restTweets)
            now_str).1
    ∧ since_id < latest.tweet_id := by
  refine ⟨rfl, ?_, hnew latest (List.mem_cons_self _ _)⟩
  simp [collect_tweets]

theorem collect_tweets_advance_cursor_witness :
    (collect_tweets (fun tw => Except.ok ⟨tw.tweet_id⟩) counts0 (some 1)
        [⟨2, 0⟩] "t").2 = some 2
    ∧ Effect.cursorWrite 2
        ∈ (collect_tweets (fun tw => Except.ok ⟨tw.tweet_id⟩) counts0 (some 1)
            [⟨2, 0⟩] "t").1 :=
  ⟨(collect_tweets_advance_cursor (fun tw => Except.ok ⟨tw.tweet_id⟩) counts0
      1 ⟨2, 0⟩ [] "t" (by decide)).1,
   (collect_tweets_advance_cursor (fun tw => Except.ok ⟨tw.tweet_id⟩) counts0
      1 ⟨2, 0⟩ [] "t" (by decide)).2.1⟩

/-- Claim C8: a storage-write notification whose key does not end in
`/index.html` triggers no invalidation; one whose size is below the
threshold triggers no invalidation; otherwise exactly one invalidation is
issued, for the key truncated just after its last `'/'` (the parent
directory), not for the file path. -/
theorem invalidate_cache_key_and_size_rules (key : String) (object_size : Nat) :
    (str_endswith ("/" ++ key) "/index.html" = false →
      invalidate_cloudfront_cache key object_size = [])
    ∧ (object_size < 600 → invalidate_cloudfront_cache key object_size = [])
    ∧ (str_endswith ("/" ++ key) "/index.html" = true → ¬ object_size < 600 →
        invalidate_cloudfront_cache key object_size
          = [Effect.createInvalidation
              [truncate_after_last_slash ("/" ++ key)]]) := by
  refine ⟨?_, ?_, ?_⟩
  · intro h
    simp [invalidate_cloudfront_cache, h]
  · intro h
    unfold invalidate_cloudfront_cache
    simp [h]
  · intro h hsize
    simp [invalidate_cloudfront_cache, h, hsize]

/-- Witness for C8, matching the spec's own example sizes: a 400-byte
index page write is ignored, a 2000-byte one invalidates `/a/` (the
parent directory), not `/a/index.html`. -/
theorem invalidate_cache_key_and_size_rules_witness :
    invalidate_cloudfront_cache "a/index.html" 400 = []
    ∧ invalidate_cloudfront_cache "a/index.html" 2000
        = [Effect.createInvalidation ["/a/"]]
    ∧ invalidate_cloudfront_cache "other.css" 2000 = [] := by
  refine ⟨?_, ?_, ?_⟩
  · exact (invalidate_cache_key_and_size_rules "a/index.html" 400).2.1
      (by decide)
  · have h := (invalidate_cache_key_and_size_rules "a/index.html" 2000).2.2
      (by decide) (by decide)
    rw [h]
    decide
  · exact (invalidate_cache_key_and_size_rules "other.css" 2000).1 (by decide)

/-- Claim C10: the invalidation size threshold is exactly 600 bytes with a
strict less-than comparison: a 600-byte index page triggers invalidation
while a 599-byte one is ignored. -/
theorem invalidate_threshold_600_boundary :
    invalidate_cloudfront_cache "a/index.html" 600
      = [Effect.createInvalidation ["/a/"]]
    ∧ invalidate_cloudfront_cache "a/index.html" 599 = [] := by
  decide

theorem month_build_not_in_render_date (ext : RecorderCounts)
    (reports : List RunReport) (f i : Bool) :
    Effect.latestMonthPageBuild ∉ render_date_contents ext reports f i := by
  unfold render_date_contents
  split <;> simp

theorem month_build_not_in_render_user (ext : RecorderCounts)
    (reports : List RunReport) (f i : Bool) :
    Effect.latestMonthPageBuild ∉ render_user_contents ext reports f i := by
  unfold render_user_contents
  split <;> split <;> simp

theorem month_build_not_in_render_quest (ext : RecorderCounts)
    (reports : List RunReport) (f i : Bool) :
    Effect.latestMonthPageBuild ∉ render_quest_contents ext reports f i := by
  unfold render_quest_contents
  split <;> simp

theorem month_build_not_in_render_contents (ext : RecorderCounts)
    (reports : List RunReport) (errors : List ParseErrorTweet) (i : Bool) :
    Effect.latestMonthPageBuild ∉ render_contents ext reports errors i := by
  unfold render_contents render_error_contents
  simp [month_build_not_in_render_date, month_build_not_in_render_user,
    month_build_not_in_render_quest]

theorem month_build_in_render_month (ext : RecorderCounts)
    (reports : List RunReport) (f : Bool) :
    Effect.latestMonthPageBuild ∈ render_month_contents ext reports f := by
  unfold render_month_contents
  split <;> simp

theorem questlist_forced_in_render_quest (ext : RecorderCounts)
    (reports : List RunReport) (f i : Bool) :
    Effect.recorderSave "questlist" true i
      ∈ render_quest_contents ext reports f i := by
  unfold render_quest_contents
  split <;> simp

/-- Counterexample to claim C4 as stated: with the month skip flag set,
the month stage's own render does not run at all (its latest-month index
build never appears in the trace), so it is not unconditional. -/
theorem month_render_not_unconditional :
    Effect.latestMonthPageBuild
      ∉ rebuild_outputs (fun tw => Except.ok ⟨tw.tweet_id⟩) counts0
          ⟨false, false, false, true⟩ [⟨1, 0⟩] := by
  decide

theorem save_not_in_render_date (ext : RecorderCounts) (reports : List RunReport)
    (f i : Bool) (s : String) (f2 i2 : Bool) (hs : s ≠ "date") :
    Effect.recorderSave s f2 i2 ∉ render_date_contents ext reports f i := by
  unfold render_date_contents
  split <;> simp [hs]

theorem save_not_in_render_user (ext : RecorderCounts) (reports : List RunReport)
    (f i : Bool) (s : String) (f2 i2 : Bool)
    (hs1 : s ≠ "user") (hs2 : s ≠ "userlist") :
    Effect.recorderSave s f2 i2 ∉ render_user_contents ext reports f i := by
  unfold render_user_contents
  split <;> split <;> simp [hs1, hs2]

theorem save_not_in_render_quest (ext : RecorderCounts) (reports : List RunReport)
    (f i : Bool) (s : String) (f2 i2 : Bool)
    (hs1 : s ≠ "quest") (hs2 : s ≠ "questlist") :
    Effect.recorderSave s f2 i2 ∉ render_quest_contents ext reports f i := by
  unfold render_quest_contents
  split <;> simp [hs1, hs2]

theorem save_not_in_render_month (ext : RecorderCounts) (reports : List RunReport)
    (f : Bool) (s : String) (f2 i2 : Bool) (hs : s ≠ "month") :
    Effect.recorderSave s f2 i2 ∉ render_month_contents ext reports f := by
  unfold render_month_contents
  split <;> simp [hs]

theorem save_not_in_render_error (errors : List ParseErrorTweet) (f i : Bool)
    (s : String) (f2 i2 : Bool) :
    Effect.recorderSave s f2 i2 ∉ render_error_contents errors f i := by
  simp [render_error_contents]

theorem date_save_mem_render_date_iff (ext : RecorderCounts)
    (reports : List RunReport) (f i : Bool) :
    (Effect.recorderSave "date" f i ∈ render_date_contents ext reports f i)
      ↔ ext.date reports ≠ 0 := by
  unfold render_date_contents
  split <;> simp_all

theorem user_save_mem_render_user_iff (ext : RecorderCounts)
    (reports : List RunReport) (f i : Bool) :
    (Effect.recorderSave "user" f i ∈ render_user_contents ext reports f i)
      ↔ ext.user reports ≠ 0 := by
  unfold render_user_contents
  split <;> split <;> simp_all

theorem userlist_save_mem_render_user_iff (ext : RecorderCounts)
    (reports : List RunReport) (f i : Bool) :
    (Effect.recorderSave "userlist" f i ∈ render_user_contents ext reports f i)
      ↔ ext.userList reports ≠ 0 := by
  unfold render_user_contents
  split <;> split <;> simp_all

theorem quest_save_mem_render_quest_iff (ext : RecorderCounts)
    (reports : List RunReport) (f i : Bool) :
    (Effect.recorderSave "quest" f i ∈ render_quest_contents ext reports f i)
      ↔ ext.quest reports ≠ 0 := by
  unfold render_quest_contents
  split <;> simp_all

theorem latest_date_build_in_render_date (ext : RecorderCounts)
    (reports : List RunReport) (f i : Bool) :
    Effect.latestDatePageBuild ∈ render_date_contents ext reports f i := by
  unfold render_date_contents
  split <;> simp

theorem latest_date_build_in_render_contents (ext : RecorderCounts)
    (reports : List RunReport) (errors : List ParseErrorTweet) (i : Bool) :
    Effect.latestDatePageBuild ∈ render_contents ext reports errors i := by
  unfold render_contents
  simp only [List.mem_append]
  exact Or.inl (Or.inl (Or.inl
    (latest_date_build_in_render_date ext reports false i)))

theorem date_save_mem_render_contents_iff (ext : RecorderCounts)
    (reports : List RunReport) (errors : List ParseErrorTweet) (i : Bool) :
    (Effect.recorderSave "date" false i ∈ render_contents ext reports errors i)
      ↔ ext.date reports ≠ 0 := by
  unfold render_contents
  simp only [List.mem_append]
  constructor
  · rintro (((h | h) | h) | h)
    · exact (date_save_mem_render_date_iff ext reports false i).mp h
    · exact absurd h (save_not_in_render_user ext reports false i "date" false i
        (by decide) (by decide))
    · exact absurd h (save_not_in_render_quest ext reports false i "date" false i
        (by decide) (by decide))
    · exact absurd h (save_not_in_render_error errors false i "date" false i)
  · intro h
    exact Or.inl (Or.inl (Or.inl
      ((date_save_mem_render_date_iff ext reports false i).mpr h)))

theorem user_save_mem_render_contents_iff (ext : RecorderCounts)
    (reports : List RunReport) (errors : List ParseErrorTweet) (i : Bool) :
    (Effect.recorderSave "user" false i ∈ render_contents ext reports errors i)
      ↔ ext.user reports ≠ 0 := by
  unfold render_contents
  simp only [List.mem_append]
  constructor
  · rintro (((h | h) | h) | h)
    · exact absurd h (save_not_in_render_date ext reports false i "user" false i
        (by decide))
    · exact (user_save_mem_render_user_iff ext reports false i).mp h
    · exact absurd h (save_not_in_render_quest ext reports false i "user" false i
        (by decide) (by decide))
    · exact absurd h (save_not_in_render_error errors false i "user" false i)
  · intro h
    exact Or.inl (Or.inl (Or.inr
      ((user_save_mem_render_user_iff ext reports false i).mpr h)))

theorem userlist_save_mem_render_contents_iff (ext : RecorderCounts)
    (reports : List RunReport) (errors : List ParseErrorTweet) (i : Bool) :
    (Effect.recorderSave "userlist" false i
        ∈ render_contents ext reports errors i)
      ↔ ext.userList reports ≠ 0 := by
  unfold render_contents
  simp only [List.mem_append]
  constructor
  · rintro (((h | h) | h) | h)
    · exact absurd h (save_not_in_render_date ext reports false i "userlist"
        false i (by decide))
    · exact (userlist_save_mem_render_user_iff ext reports false i).mp h
    · exact absurd h (save_not_in_render_quest ext reports false i "userlist"
        false i (by decide) (by decide))
    · exact absurd h (save_not_in_render_error errors false i "userlist" false i)
  · intro h
    exact Or.inl (Or.inl (Or.inr
      ((userlist_save_mem_render_user_iff ext reports false i).mpr h)))

theorem quest_save_mem_render_contents_iff (ext : RecorderCounts)
    (reports : List RunReport) (errors : List ParseErrorTweet) (i : Bool) :
    (Effect.recorderSave "quest" false i ∈ render_contents ext reports errors i)
      ↔ ext.quest reports ≠ 0 := by
  unfold render_contents
  simp only [List.mem_append]
  constructor
  · rintro (((h | h) | h) | h)
    · exact absurd h (save_not_in_render_date ext reports false i "quest" false i
        (by decide))
    · exact absurd h (save_not_in_render_user ext reports false i "quest" false i
        (by decide) (by decide))
    · exact (quest_save_mem_render_quest_iff ext reports false i).mp h
    · exact absurd h (save_not_in_render_error errors false i "quest" false i)
  · intro h
    exact Or.inl (Or.inr
      ((quest_save_mem_render_quest_iff ext reports false i).mpr h))

theorem latest_date_build_in_rebuild (parse : TweetCopy → Except String RunReport)
    (ext : RecorderCounts) (ev : RebuildEvent) (tweets : List TweetCopy) :
    Effect.latestDatePageBuild ∈ rebuild_outputs parse ext ev tweets := by
  unfold rebuild_outputs
  simp only [List.mem_append]
  exact Or.inr (latest_date_build_in_render_contents ext _ _ true)

theorem date_save_mem_rebuild_iff (parse : TweetCopy → Except String RunReport)
    (ext : RecorderCounts) (ev : RebuildEvent) (tweets : List TweetCopy) :
    (Effect.recorderSave "date" false true ∈ rebuild_outputs parse ext ev tweets)
      ↔ ext.date (parse_tweets parse tweets).1 ≠ 0 := by
  unfold rebuild_outputs
  simp only [List.mem_append]
  constructor
  · rintro ((((h | h) | h) | h) | h)
    · revert h
      split
      · simp
      · intro h
        exact (date_save_mem_render_date_iff ext _ false true).mp h
    · revert h
      split
      · simp
      · intro h
        exact absurd h (save_not_in_render_user ext _ false true "date" false
          true (by decide) (by decide))
    · revert h
      split
      · simp
      · intro h
        exact absurd h (save_not_in_render_quest ext _ false true "date" false
          true (by decide) (by decide))
    · revert h
      split
      · simp
      · intro h
        exact absurd h (save_not_in_render_month ext _ false "date" false true
          (by decide))
    · exact (date_save_mem_render_contents_iff ext _ _ true).mp h
  · intro h
    exact Or.inr ((date_save_mem_render_contents_iff ext _ _ true).mpr h)

theorem user_save_mem_rebuild_iff (parse : TweetCopy → Except String RunReport)
    (ext : RecorderCounts) (ev : RebuildEvent) (tweets : List TweetCopy) :
    (Effect.recorderSave "user" false true ∈ rebuild_outputs parse ext ev tweets)
      ↔ ext.user (parse_tweets parse tweets).1 ≠ 0 := by
  unfold rebuild_outputs
  simp only [List.mem_append]
  constructor
  · rintro ((((h | h) | h) | h) | h)
    · revert h
      split
      · simp
      · intro h
        exact absurd h (save_not_in_render_date ext _ false true "user" false
          true (by decide))
    · revert h
      split
      · simp
      · intro h
        exact (user_save_mem_render_user_iff ext _ false true).mp h
    · revert h
      split
      · simp
      · intro h
        exact absurd h (save_not_in_render_quest ext _ false true "user" false
          true (by decide) (by decide))
    · revert h
      split
      · simp
      · intro h
        exact absurd h (save_not_in_render_month ext _ false "user" false true
          (by decide))
    · exact (user_save_mem_render_contents_iff ext _ _ true).mp h
  · intro h
    exact Or.inr ((user_save_mem_render_contents_iff ext _ _ true).mpr h)

theorem userlist_save_mem_rebuild_iff
    (parse : TweetCopy → Except String RunReport) (ext : RecorderCounts)
    (ev : RebuildEvent) (tweets : List TweetCopy) :
    (Effect.recorderSave "userlist" false true
        ∈ rebuild_outputs parse ext ev tweets)
      ↔ ext.userList (parse_tweets parse tweets).1 ≠ 0 := by
  unfold rebuild_outputs
  simp only [List.mem_append]
  constructor
  · rintro ((((h | h) | h) | h) | h)
    · revert h
      split
      · simp
      · intro h
        exact absurd h (save_not_in_render_date ext _ false true "userlist"
          false true (by decide))
    · revert h
      split
      · simp
      · intro h
        exact (userlist_save_mem_render_user_iff ext _ false true).mp h
    · revert h
      split
      · simp
      · intro h
        exact absurd h (save_not_in_render_quest ext _ false true "userlist"
          false true (by decide) (by decide))
    · revert h
      split
      · simp
      · intro h
        exact absurd h (save_not_in_render_month ext _ false "userlist" false
          true (by decide))
    · exact (userlist_save_mem_render_contents_iff ext _ _ true).mp h
  · intro h
    exact Or.inr ((userlist_save_mem_render_contents_iff ext _ _ true).mpr h)

theorem quest_save_mem_rebuild_iff (parse : TweetCopy → Except String RunReport)
    (ext : RecorderCounts) (ev : RebuildEvent) (tweets : List TweetCopy) :
    (Effect.recorderSave "quest" false true
        ∈ rebuild_outputs parse ext ev tweets)
      ↔ ext.quest (parse_tweets parse tweets).1 ≠ 0 := by
  unfold rebuild_outputs
  simp only [List.mem_append]
  constructor
  · rintro ((((h | h) | h) | h) | h)
    · revert h
      split
      · simp
      · intro h
        exact absurd h (save_not_in_render_date ext _ false true "quest" false
          true (by decide))
    · revert h
      split
      · simp
      · intro h
        exact absurd h (save_not_in_render_user ext _ false true "quest" false
          true (by decide) (by decide))
    · revert h
      split
      · simp
      · intro h
        exact (quest_save_mem_render_quest_iff ext _ false true).mp h
    · revert h
      split
      · simp
      · intro h
        exact absurd h (save_not_in_render_month ext _ false "quest" false true
          (by decide))
    · exact (quest_save_mem_render_contents_iff ext _ _ true).mp h
  · intro h
    exact Or.inr ((quest_save_mem_render_contents_iff ext _ _ true).mpr h)

/-- Claim C4 (amended): in every rebuild-job invocation, after the four
per-stage-flag-guarded renders (date, user, quest and month), a second
pass of the date/user/quest/error stages runs unconditionally with the
ignore-existing-persisted-state flag forced on: regardless of all skip
flags, the latest-date index is rebuilt, the date / user / user-list /
quest partitions are committed with the forced-ignore flag exactly when
their recorders have pending partitions, and the forced quest-list and
error-page commits always occur; the month stage's render (and its
latest-month index build) runs exactly when the month skip flag is
unset. -/
theorem rebuild_second_pass_amended (parse : TweetCopy → Except String RunReport)
    (ext : RecorderCounts) (ev : RebuildEvent) (tweets : List TweetCopy) :
    ((Effect.latestMonthPageBuild ∈ rebuild_outputs parse ext ev tweets)
      ↔ ev.skipBuildMonth = false)
    ∧ Effect.latestDatePageBuild ∈ rebuild_outputs parse ext ev tweets
    ∧ ((Effect.recorderSave "date" false true
          ∈ rebuild_outputs parse ext ev tweets)
        ↔ ext.date (parse_tweets parse tweets).1 ≠ 0)
    ∧ ((Effect.recorderSave "user" false true
          ∈ rebuild_outputs parse ext ev tweets)
        ↔ ext.user (parse_tweets parse tweets).1 ≠ 0)
    ∧ ((Effect.recorderSave "userlist" false true
          ∈ rebuild_outputs parse ext ev tweets)
        ↔ ext.userList (parse_tweets parse tweets).1 ≠ 0)
    ∧ ((Effect.recorderSave "quest" false true
          ∈ rebuild_outputs parse ext ev tweets)
        ↔ ext.quest (parse_tweets parse tweets).1 ≠ 0)
    ∧ Effect.recorderSave "questlist" true true
        ∈ rebuild_outputs parse ext ev tweets
    ∧ Effect.errorPageSave false true ∈ rebuild_outputs parse ext ev tweets := by
  refine ⟨?_, latest_date_build_in_rebuild parse ext ev tweets,
    date_save_mem_rebuild_iff parse ext ev tweets,
    user_save_mem_rebuild_iff parse ext ev tweets,
    userlist_save_mem_rebuild_iff parse ext ev tweets,
    quest_save_mem_rebuild_iff parse ext ev tweets, ?_, ?_⟩
  · unfold rebuild_outputs
    constructor
    · intro hmem
      rcases List.mem_append.mp hmem with hmem | hmem
      · rcases List.mem_append.mp hmem with hmem | hmem
        · rcases List.mem_append.mp hmem with hmem | hmem
          · rcases List.mem_append.mp hmem with hmem | hmem
            · revert hmem
              split
              · simp
              · exact fun hmem =>
                  absurd hmem (month_build_not_in_render_date _ _ _ _)
            · revert hmem
              split
              · simp
              · exact fun hmem =>
                  absurd hmem (month_build_not_in_render_user _ _ _ _)
          · revert hmem
            split
            · simp
            · exact fun hmem =>
                absurd hmem (month_build_not_in_render_quest _ _ _ _)
        · revert hmem
          split
          · simp
          · intro _
            simp_all
      · exact absurd hmem (month_build_not_in_render_contents _ _ _ _)
    · intro hsm
      refine List.mem_append.mpr (Or.inl (List.mem_append.mpr (Or.inr ?_)))
      rw [hsm]
      simpa using month_build_in_render_month ext (parse_tweets parse tweets).1
        false
  · unfold rebuild_outputs
    refine List.mem_append.mpr (Or.inr ?_)
    unfold render_contents
    refine List.mem_append.mpr (Or.inl (List.mem_append.mpr (Or.inr ?_)))
    exact questlist_forced_in_render_quest _ _ _ _
  · unfold rebuild_outputs
    refine List.mem_append.mpr (Or.inr ?_)
    unfold render_contents render_error_contents
    simp


/-- Claim C5: the recollection endpoint rejects wholesale, with an empty
effect trace (no fetch, no raw-log write, no render), a body that is not
a list, a list of more than 20 entries, and a list containing an
unparseable URL. -/
theorem recollect_rejects_bad_input
    (parse : TweetCopy → Except String RunReport)
    (parseURL : String → Option (String × Nat))
    (userReports : String → List Nat) (get_multi : List Nat → List TweetCopy)
    (ext : RecorderCounts) (data : List String) :
    recollect_tweets parse parseURL userReports get_multi ext .notList
      = (.badRequest "wrong format", [])
    ∧ (data.length > 20 →
        recollect_tweets parse parseURL userReports get_multi ext
          (.ofList data) = (.badRequest "wrong format", []))
    ∧ (parse_multi parseURL data = none →
        recollect_tweets parse parseURL userReports get_multi ext
          (.ofList data) = (.badRequest "wrong format", [])) := by
  refine ⟨rfl, ?_, ?_⟩
  · intro h
    simp [recollect_tweets, h]
  · intro h
    unfold recollect_tweets
    by_cases hl : data.length > 20
    · simp [hl]
    · simp [hl, h]

theorem recollect_rejects_bad_input_witness :
    recollect_tweets parse0 parseURL0 userReports0 get_multi0 counts0 .notList
      = (.badRequest "wrong format", [])
    ∧ recollect_tweets parse0 parseURL0 userReports0 get_multi0 counts0
        (.ofList (List.replicate 21 "x")) = (.badRequest "wrong format", [])
    ∧ recollect_tweets parse0 parseURL0 userReports0 get_multi0 counts0
        (.ofList ["x"]) = (.badRequest "wrong format", []) :=
  ⟨(recollect_rejects_bad_input parse0 parseURL0 userReports0 get_multi0
      counts0 []).1,
   (recollect_rejects_bad_input parse0 parseURL0 userReports0 get_multi0
      counts0 (List.replicate 21 "x")).2.1 (by decide),
   (recollect_rejects_bad_input parse0 parseURL0 userReports0 get_multi0
      counts0 ["x"]).2.2 (by decide)⟩

theorem recollect_day_no_cursor_censored
    (parse : TweetCopy → Except String RunReport) (ext : RecorderCounts)
    (dt : Nat) (tws : List TweetCopy) :
    (recollect_day parse ext dt tws).all
      (fun e => ! e.touchesCursorOrCensored) = true := by
  unfold recollect_day render_date_contents render_user_contents
    render_quest_contents render_error_contents
  simp only [List.all_cons, List.all_append]
  split_ifs <;> simp [Effect.touchesCursorOrCensored]

/-- Claim C7: no execution path of the recollection endpoint reads or
writes the Cursor or loads/persists the Exclusion Set: every effect in
every recollection trace (success or rejection) is outside the
cursor/censored frame. -/
theorem recollect_frame_cursor_censored
    (parse : TweetCopy → Except String RunReport)
    (parseURL : String → Option (String × Nat))
    (userReports : String → List Nat) (get_multi : List Nat → List TweetCopy)
    (ext : RecorderCounts) (body : RequestBody) :
    ((recollect_tweets parse parseURL userReports get_multi ext body).2).all
      (fun e => ! e.touchesCursorOrCensored) = true := by
  cases body with
  | notList => rfl
  | ofList data =>
    by_cases hl : data.length > 20
    · simp [recollect_tweets, hl]
    · cases hp : parse_multi parseURL data with
      | none => simp [recollect_tweets, hl, hp]
      | some user_retargets =>
        simp only [recollect_tweets, hl, hp, if_false, ite_false]
        split
        · rfl
        · split
          · simp [Effect.touchesCursorOrCensored]
          · simp only [List.all_cons, Bool.and_eq_true]
            refine ⟨rfl, ?_⟩
            rw [List.all_eq_true]
            intro e he
            have := List.mem_flatten.mp he
            obtain ⟨l, hl2, hel⟩ := this
            obtain ⟨p, _, rfl⟩ := List.mem_map.mp hl2
            exact List.all_eq_true.mp
              (recollect_day_no_cursor_censored parse ext p.1 p.2) e hel

theorem parse_multi_pairs_mem (parseURL : String → Option (String × Nat)) :
    ∀ (urls : List String) (pairs : List (String × Nat)),
      parse_multi_pairs parseURL urls = some pairs →
      ∀ p ∈ pairs, ∃ url ∈ urls, parseURL url = some p := by
  intro urls
  induction urls with
  | nil =>
    intro pairs h p hp
    simp [parse_multi_pairs] at h
    subst h
    simp at hp
  | cons url rest ih =>
    intro pairs h p hp
    unfold parse_multi_pairs at h
    cases hu : parseURL url with
    | none => rw [hu] at h; simp at h
    | some q =>
      rw [hu] at h
      cases hr : parse_multi_pairs parseURL rest with
      | none => rw [hr] at h; simp at h
      | some ps =>
        rw [hr] at h
        simp at h
        subst h
        rcases List.mem_cons.mp hp with rfl | hp2
        · exact ⟨url, List.mem_cons_self _ _, hu⟩
        · obtain ⟨u2, hu2, hpu⟩ := ih ps hr p hp2
          exact ⟨u2, List.mem_cons_of_mem _ hu2, hpu⟩

theorem insertTarget_mem (user : String) (t0 : Nat) :
    ∀ (acc : List (String × List Nat)) (q : String × List Nat) (t : Nat),
      q ∈ insertTarget user t0 acc → t ∈ q.2 →
      (q.1 = user ∧ t = t0) ∨ ∃ q1 ∈ acc, q1.1 = q.1 ∧ t ∈ q1.2 := by
  intro acc
  induction acc with
  | nil =>
    intro q t hq ht
    simp [insertTarget] at hq
    subst hq
    simp at ht
    exact Or.inl ⟨rfl, ht⟩
  | cons hd rest ih =>
    intro q t hq ht
    obtain ⟨u, ts⟩ := hd
    simp only [insertTarget] at hq
    by_cases he : u = user
    · rw [if_pos he] at hq
      rcases List.mem_cons.mp hq with rfl | hq2
      · rcases List.mem_append.mp ht with h1 | h1
        · exact Or.inr ⟨(u, ts), List.mem_cons_self _ _, rfl, h1⟩
        · simp at h1
          exact Or.inl ⟨he, h1⟩
      · exact Or.inr ⟨q, List.mem_cons_of_mem _ hq2, rfl, ht⟩
    · rw [if_neg he] at hq
      rcases List.mem_cons.mp hq with heq | hq2
      · subst heq
        exact Or.inr ⟨(u, ts), List.mem_cons_self _ _, rfl, ht⟩
      · rcases ih q t hq2 ht with h | ⟨q1, hq1, h1, h2⟩
        · exact Or.inl h
        · exact Or.inr ⟨q1, List.mem_cons_of_mem _ hq1, h1, h2⟩

theorem foldl_insertTarget_mem (pairs : List (String × Nat)) :
    ∀ (init : List (String × List Nat)) (q : String × List Nat) (t : Nat),
      q ∈ pairs.foldl (fun acc p => insertTarget p.1 p.2 acc) init →
      t ∈ q.2 →
      (q.1, t) ∈ pairs ∨ ∃ q1 ∈ init, q1.1 = q.1 ∧ t ∈ q1.2 := by
  induction pairs with
  | nil =>
    intro init q t hq ht
    exact Or.inr ⟨q, hq, rfl, ht⟩
  | cons p rest ih =>
    intro init q t hq ht
    simp only [List.foldl_cons] at hq
    rcases ih _ q t hq ht with h | ⟨q1, hq1, h1, h2⟩
    · exact Or.inl (List.mem_cons_of_mem _ h)
    · rcases insertTarget_mem p.1 p.2 init q1 t hq1 h2 with ⟨e1, e2⟩ | h3
      · left
        have hq1p : (q.1, t) = p := by
          have h4 : q.1 = p.1 := by rw [← h1, e1]
          rw [h4, e2]
        rw [hq1p]
        exact List.mem_cons_self _ _
      · obtain ⟨q2, hq2, g1, g2⟩ := h3
        exact Or.inr ⟨q2, hq2, by rw [g1, h1], g2⟩

theorem foldl_append_flatten {α β : Type} (g : α → List β) :
    ∀ (l : List α) (init : List β),
      l.foldl (fun acc x => acc ++ g x) init = init ++ (l.map g).flatten := by
  intro l
  induction l with
  | nil => intro init; simp
  | cons x rest ih =>
    intro init
    simp only [List.foldl_cons, List.map_cons, List.flatten_cons]
    rw [ih]
    simp [List.append_assoc]

/-- Claim C6: when every requested target identifier is already present in
the corresponding per-source rendered state, the recollection endpoint
performs zero fetches, writes nothing, and returns the success status. -/
theorem recollect_all_present_noop
    (parse : TweetCopy → Except String RunReport)
    (parseURL : String → Option (String × Nat))
    (userReports : String → List Nat) (get_multi : List Nat → List TweetCopy)
    (ext : RecorderCounts) (data : List String)
    (grouped : List (String × List Nat))
    (hlen : ¬ data.length > 20)
    (hparse : parse_multi parseURL data = some grouped)
    (hall : ∀ url ∈ data, ∀ u t, parseURL url = some (u, t) →
        (userReports u).contains t = true) :
    recollect_tweets parse parseURL userReports get_multi ext (.ofList data)
      = (.ok, []) := by
  have hpm := hparse
  unfold parse_multi at hpm
  cases hp : parse_multi_pairs parseURL data with
  | none => rw [hp] at hpm; simp at hpm
  | some pairs =>
    rw [hp] at hpm
    simp at hpm
    have hcand : grouped.foldl
        (fun acc ut =>
          acc ++ ut.2.filter (fun t => ! (userReports ut.1).contains t)) []
        = [] := by
      rw [foldl_append_flatten]
      rw [List.nil_append]
      apply List.flatten_eq_nil_iff.mpr
      intro l hlmem
      obtain ⟨ut, hut, rfl⟩ := List.mem_map.mp hlmem
      apply List.filter_eq_nil_iff.mpr
      intro t htmem
      have hprov : (ut.1, t) ∈ pairs := by
        have := foldl_insertTarget_mem pairs [] ut t (by rw [hpm]; exact hut)
          htmem
        rcases this with h | ⟨q1, hq1, _, _⟩
        · exact h
        · simp at hq1
      obtain ⟨url, hurl, hpu⟩ :=
        parse_multi_pairs_mem parseURL data pairs hp (ut.1, t) hprov
      have := hall url hurl ut.1 t hpu
      simpa using this
    simp only [recollect_tweets]
    rw [if_neg hlen, hparse]
    dsimp only
    rw [hcand]
    rfl

theorem recollect_all_present_noop_witness :
    recollect_tweets parse0 parseURL1 userReports1 get_multi0 counts0
      (.ofList ["a"]) = (.ok, []) :=
  recollect_all_present_noop parse0 parseURL1 userReports1 get_multi0 counts0
    ["a"] [("u", [1])] (by decide) (by decide)
    (by
      intro url hurl u t hpt
      simp only [parseURL1, Option.some.injEq, Prod.mk.injEq] at hpt
      obtain ⟨h1, h2⟩ := hpt
      subst h1
      subst h2
      decide)

theorem recollect_frame_cursor_censored_witness :
    ((recollect_tweets parse0 parseURL1 userReports0 (fun _ => [⟨7, 3⟩])
        counts0 (.ofList ["a"])).2).all
      (fun e => ! e.touchesCursorOrCensored) = true :=
  recollect_frame_cursor_censored parse0 parseURL1 userReports0
    (fun _ => [⟨7, 3⟩]) counts0 (.ofList ["a"])
